import Mathlib

/-!
Verification of the slide-captcha challenge/response subsystem of the
Edu_Mall_Go backend: a shallow embedding of the Redis verify layer
(`adaptor/redis`, source part_002), the error-code module (`common`,
source part_000) and the captcha service layer (`service/admin`,
source part_008), together with proofs of the spec's testable
properties.

External collaborators (the go-redis client, the go-captcha puzzle
generator, `encoding/json`) are modelled by their documented contracts;
every such model is marked in its doc comment.  The state of the
backing store is an association list from Redis key strings to stored
records; reachability of the store during a run is a boolean field.
-/

set_option autoImplicit false

/-- Record stored in Redis under one key: the string value and the TTL
it was written with.  Durations are modelled in seconds (Go passes
`time.Duration`; `time.Minute*2` is 120 s, `time.Minute*5` is 300 s). -/
structure RedisRecord where
  value : String
  ttl : Nat
deriving Repr, DecidableEq

/-- Lookup of a key in the association-list store. -/
def rlookup : List (String × RedisRecord) → String → Option RedisRecord
  | [], _ => none
  | (k, v) :: rest, key => if k = key then some v else rlookup rest key

/-- Removal of every binding of a key from the store (Redis `DEL`). -/
def rremove : List (String × RedisRecord) → String → List (String × RedisRecord)
  | [], _ => []
  | (k, v) :: rest, key =>
      if k = key then rremove rest key else (k, v) :: rremove rest key

/-- Insertion of a binding, overwriting any previous one (Redis `SET`). -/
def rinsert (st : List (String × RedisRecord)) (key : String) (v : RedisRecord) :
    List (String × RedisRecord) :=
  (key, v) :: rremove st key

/-- Errors a go-redis call can surface.  `redisNil` is the distinguished
`redis.Nil` error that `Get(...).Result()` returns when the key is absent
or expired; `connErr` abstracts a transport-level failure of an
unreachable store. -/
inductive GoErr where
  | redisNil
  | connErr
deriving Repr, DecidableEq

/-- Error message carried by the Go error value (`err.Error()`). -/
def GoErr.message : GoErr → String
  | .redisNil => "redis: nil"
  | .connErr => "redis: connection error"

/-- Modelled from the spec: the go-redis client (external collaborator,
not in src).  `up` says whether the backing store is reachable during
the run; `data` is the key-value state.  The spec's store contract is
`SET key value TTL`, `GET key` returning not-found when absent or
expired, and `DEL key`. -/
structure Redis where
  up : Bool
  data : List (String × RedisRecord)
deriving Repr, DecidableEq

/-- Modelled from the spec: `redis.Get(key).Result()`.  On a reachable
store a present key yields its value with no error and an absent (or
expired) key yields the empty string with the `redis.Nil` error; an
unreachable store yields a connection error. -/
def Redis.get (r : Redis) (k : String) : String × Option GoErr :=
  if r.up then
    match rlookup r.data k with
    | some rec => (rec.value, none)
    | none => ("", some GoErr.redisNil)
  else ("", some GoErr.connErr)

/-- Modelled from the spec: `redis.Set(key, value, expire).Err()`.  A
reachable store atomically overwrites the binding; an unreachable store
fails and leaves no partial write. -/
def Redis.set (r : Redis) (k v : String) (expire : Nat) : Redis × Option GoErr :=
  if r.up then ({ r with data := rinsert r.data k ⟨v, expire⟩ }, none)
  else (r, some GoErr.connErr)

/-- Modelled from the spec: `redis.Del(key)`.  A reachable store removes
the binding; an unreachable store fails and changes nothing. -/
def Redis.del (r : Redis) (k : String) : Redis × Option GoErr :=
  if r.up then ({ r with data := rremove r.data k }, none)
  else (r, some GoErr.connErr)

namespace common

/-- Errno from `common` (source part_000): unified error code structure
with client-facing code and message and a detail message for logs. -/
structure Errno where
  Code : Int
  Msg : String
  ErrMsg : String
deriving Repr, DecidableEq

/-- Errno.WithMsg from part_000: appends context to the client message. -/
def Errno.WithMsg (err : Errno) (msg : String) : Errno :=
  { err with Msg := err.Msg ++ "," ++ msg }

/-- Errno.WithErr from part_000: appends the raw error text to `ErrMsg`
(a Go `error` is modelled as `Option String`, `none` being nil). -/
def Errno.WithErr (err : Errno) (rawErr : Option String) : Errno :=
  let msg := match rawErr with
    | some s => s
    | none => ""
  { err with ErrMsg := err.Msg ++ "," ++ msg }

/-- Errno.IsOk from part_000: code 200 means success. -/
def Errno.IsOk (err : Errno) : Bool := err.Code == 200

/-- Predefined code OK from part_000. -/
def OK : Errno := ⟨200, "OK", ""⟩

/-- Predefined code ServerErr from part_000. -/
def ServerErr : Errno := ⟨500, "Internal Server Error", ""⟩

/-- Predefined code ParamErr from part_000. -/
def ParamErr : Errno := ⟨400, "Param Error", ""⟩

/-- Predefined code RedisErr from part_000. -/
def RedisErr : Errno := ⟨10001, "Redis Error", ""⟩

/-- Predefined code InvalidCaptchaErr from part_000. -/
def InvalidCaptchaErr : Errno := ⟨11002, "滑块校验失败，请重试", ""⟩

end common

/-- config.ServerFullName (source part_006, line 19). -/
def ServerFullName : String := "edu.mall"

/-- fmtVerifyCaptchaKey from part_002: Redis key name for a stored
challenge solution. -/
def fmtVerifyCaptchaKey (key : String) : String :=
  ServerFullName ++ ":captcha:" ++ key

/-- fmtVerifyCaptchaTicket from part_002: Redis key name for a stored
ticket. -/
def fmtVerifyCaptchaTicket (key : String) : String :=
  ServerFullName ++ ":captcha:ticket:" ++ key

namespace Verify

/-- Verify.SetCaptchaKey from part_002: stores the captcha solution
JSON under the challenge namespace. -/
def SetCaptchaKey (r : Redis) (key value : String) (expire : Nat) :
    Redis × Option GoErr :=
  Redis.set r (fmtVerifyCaptchaKey key) value expire

/-- Verify.GetCaptchaKey from part_002: reads the stored solution and,
on success only, deletes it (the Del result is ignored by the source);
on any Get error the value is empty, the error is propagated and the
store is untouched. -/
def GetCaptchaKey (r : Redis) (key : String) : (String × Option GoErr) × Redis :=
  match Redis.get r (fmtVerifyCaptchaKey key) with
  | (_, some e) => (("", some e), r)
  | (get, none) => ((get, none), (Redis.del r (fmtVerifyCaptchaKey key)).1)

/-- Verify.SetCaptchaTicket from part_002: stores the ticket payload
under the ticket namespace. -/
def SetCaptchaTicket (r : Redis) (key value : String) (expire : Nat) :
    Redis × Option GoErr :=
  Redis.set r (fmtVerifyCaptchaTicket key) value expire

/-- Verify.GetCaptchaTicket from part_002: reads the stored ticket and,
on success only, deletes it; on any Get error the value is empty, the
error is propagated and the store is untouched. -/
def GetCaptchaTicket (r : Redis) (key : String) : (String × Option GoErr) × Redis :=
  match Redis.get r (fmtVerifyCaptchaTicket key) with
  | (_, some e) => (("", some e), r)
  | (get, none) => ((get, none), (Redis.del r (fmtVerifyCaptchaTicket key)).1)

end Verify

namespace slide

/-- Modelled from the spec: `slide.Block` of the external go-captcha
library (not in src) — the puzzle solution record serialized into the
store.  The service layer reads `X`, `Y` (correct slide position) and
`Width`, `Height`, `TileX`, `TileY` (tile geometry returned to the
client). -/
structure Block where
  X : Int
  Y : Int
  Width : Int
  Height : Int
  TileX : Int
  TileY : Int
deriving Repr, DecidableEq

/-- Modelled from the spec: `slide.CheckPoint(sx, sy, dx, dy, padding)`
of the external go-captcha library — the submitted point matches the
stored point when it deviates by at most `padding` on each axis. -/
def CheckPoint (sx sy dx dy padding : Int) : Bool :=
  (dx - padding ≤ sx && sx ≤ dx + padding) &&
  (dy - padding ≤ sy && sy ≤ dy + padding)

end slide

namespace dto

/-- Modelled from the spec: `dto.GetVerifyCaptchaResp` (the
`mall/service/dto` package is not in src); fields are exactly those the
issuance response in part_008 populates. -/
structure GetVerifyCaptchaResp where
  Key : String
  ImageBs64 : String
  TitleImageBs64 : String
  TitleHeight : Int
  TitleWidth : Int
  TitleX : Int
  TitleY : Int
  Expire : Int
deriving Repr, DecidableEq

/-- Modelled from the spec: `dto.CheckCaptchaReq` — the verification
request carries the challenge key and the submitted slide coordinates. -/
structure CheckCaptchaReq where
  Key : String
  SlideX : Int
  SlideY : Int
deriving Repr, DecidableEq

/-- Modelled from the spec: `dto.CheckCaptchaDtoResp` — the verification
response carries the minted ticket and an advisory expiry hint. -/
structure CheckCaptchaDtoResp where
  Ticket : String
  Expire : Int
deriving Repr, DecidableEq

end dto

/-- Modelled from the spec: the puzzle artifact returned by the external
go-captcha generator, opaque to the engine beyond the observations the
service makes of it: `GetData()` (which may be nil), and the two image
encodings `GetMasterImage().ToBase64()` and `GetTileImage().ToBase64()`
(each of which may fail). -/
structure CaptData where
  dotData : Option slide.Block
  masterBase64 : Except String String
  tileBase64 : Except String String

/-- Go `time.Minute`, in the seconds-based duration model. -/
def timeMinute : Nat := 60

namespace Service

/-- Service.GetSlideCaptcha from part_008, shallowly embedded.  The
I/O-dependent inputs are passed explicitly: `generate` is the outcome
of `s.captcha.Generate()`, `marshal` is `json.Marshal` on the solution
block (fallible, as the source handles), `uuid` is the fresh
`tools.UUIDHex()` token, and `r` is the Redis state.  Returns the
response, the error code, and the resulting store state. -/
def GetSlideCaptcha (generate : Except String CaptData)
    (marshal : slide.Block → Except String String) (uuid : String)
    (r : Redis) : (Option dto.GetVerifyCaptchaResp × common.Errno) × Redis :=
  match generate with
  | .error e => ((none, common.ServerErr.WithErr (some e)), r)
  | .ok captData =>
    match captData.dotData with
    | none => ((none, common.ServerErr.WithMsg "GetData is nil"), r)
    | some dotData =>
      match marshal dotData with
      | .error e => ((none, common.ServerErr.WithErr (some e)), r)
      | .ok dots =>
        match captData.masterBase64 with
        | .error e => ((none, common.ServerErr.WithErr (some e)), r)
        | .ok mBs64Data =>
          match captData.tileBase64 with
          | .error e => ((none, common.ServerErr.WithErr (some e)), r)
          | .ok tBs64Data =>
            match Verify.SetCaptchaKey r uuid dots (timeMinute * 2) with
            | (r2, some e) =>
                ((none, common.RedisErr.WithErr (some e.message)), r2)
            | (r2, none) =>
                ((some { Key := uuid, ImageBs64 := mBs64Data,
                         TitleImageBs64 := tBs64Data,
                         TitleHeight := dotData.Height,
                         TitleWidth := dotData.Width,
                         TitleX := dotData.TileX, TitleY := dotData.TileY,
                         Expire := 110 }, common.OK), r2)

/-- Service.CheckSlideCaptcha from part_008, shallowly embedded.
`unmarshal` is `json.Unmarshal` into a `slide.Block` (`none` models a
deserialization error), `uuid` is the fresh `tools.UUIDHex()` ticket
token, `r` the Redis state and `req` the request. -/
def CheckSlideCaptcha (unmarshal : String → Option slide.Block)
    (uuid : String) (r : Redis) (req : dto.CheckCaptchaReq) :
    (Option dto.CheckCaptchaDtoResp × common.Errno) × Redis :=
  match Verify.GetCaptchaKey r req.Key with
  | ((_, some e), r1) => ((none, common.RedisErr.WithErr (some e.message)), r1)
  | ((captData, none), r1) =>
    if captData = "" then
      ((none, common.ParamErr.WithMsg "滑块已过期，请刷新重试"), r1)
    else
      match unmarshal captData with
      | none => ((none, common.InvalidCaptchaErr), r1)
      | some dot =>
        if slide.CheckPoint req.SlideX req.SlideY dot.X dot.Y 5 = false then
          ((none, common.InvalidCaptchaErr), r1)
        else
          match Verify.SetCaptchaTicket r1 uuid req.Key (timeMinute * 5) with
          | (r2, some e) => ((none, common.RedisErr.WithErr (some e.message)), r2)
          | (r2, none) => ((some { Ticket := uuid, Expire := 280 }, common.OK), r2)

end Service

/-- Concrete demo serialization of a solution block, used to instantiate
the `marshal` parameter in closed scenarios.  It renders the two
coordinates; like `json.Marshal` on a struct of integers it never fails
and never returns the empty string. -/
def encodeBlockDemo (b : slide.Block) : Except String String :=
  .ok ("P " ++ toString b.X ++ " " ++ toString b.Y)

/-- Concrete demo deserialization matching `encodeBlockDemo` on the
block values used in the closed scenarios; every other string is
rejected, as `json.Unmarshal` rejects malformed input. -/
def decodeBlockDemo (s : String) : Option slide.Block :=
  if s = "P 10 10" then some ⟨10, 10, 0, 0, 0, 0⟩
  else if s = "P 100 50" then some ⟨100, 50, 60, 40, 20, 30⟩
  else none

theorem rlookup_rremove_self (st : List (String × RedisRecord)) (k : String) :
    rlookup (rremove st k) k = none := by
  induction st with
  | nil => simp [rremove, rlookup]
  | cons p rest ih =>
    obtain ⟨k1, v1⟩ := p
    by_cases h : k1 = k
    · simpa [rremove, h] using ih
    · simpa [rremove, rlookup, h] using ih

theorem rlookup_rremove_other (st : List (String × RedisRecord)) (k k2 : String)
    (h : k2 ≠ k) : rlookup (rremove st k) k2 = rlookup st k2 := by
  induction st with
  | nil => simp [rremove]
  | cons p rest ih =>
    obtain ⟨k1, v1⟩ := p
    by_cases h1 : k1 = k
    · subst h1
      have h3 : ¬ k1 = k2 := fun hh => h hh.symm
      simp [rremove, rlookup, h3, ih]
    · by_cases h2 : k1 = k2
      · simp [rremove, rlookup, h1, h2, h]
      · simp [rremove, rlookup, h1, h2, ih]

theorem rlookup_rinsert_self (st : List (String × RedisRecord)) (k : String)
    (v : RedisRecord) : rlookup (rinsert st k v) k = some v := by
  simp [rinsert, rlookup]

theorem rlookup_rinsert_other (st : List (String × RedisRecord)) (k k2 : String)
    (v : RedisRecord) (h : k ≠ k2) :
    rlookup (rinsert st k v) k2 = rlookup st k2 := by
  simp [rinsert, rlookup, h, rlookup_rremove_other st k k2 (Ne.symm h)]

theorem getCaptchaKey_present (r : Redis) (k : String) (rec : RedisRecord)
    (hup : r.up = true) (h : rlookup r.data (fmtVerifyCaptchaKey k) = some rec) :
    Verify.GetCaptchaKey r k =
      ((rec.value, none), ⟨true, rremove r.data (fmtVerifyCaptchaKey k)⟩) := by
  cases r with
  | mk up data =>
    simp only [Redis.up] at hup
    simp only [Redis.data] at h
    subst hup
    simp [Verify.GetCaptchaKey, Redis.get, Redis.del, h]

theorem getCaptchaKey_absent (r : Redis) (k : String)
    (hup : r.up = true) (h : rlookup r.data (fmtVerifyCaptchaKey k) = none) :
    Verify.GetCaptchaKey r k = (("", some GoErr.redisNil), r) := by
  cases r with
  | mk up data =>
    simp only [Redis.up] at hup
    simp only [Redis.data] at h
    subst hup
    simp [Verify.GetCaptchaKey, Redis.get, h]

theorem getCaptchaTicket_present (r : Redis) (k : String) (rec : RedisRecord)
    (hup : r.up = true)
    (h : rlookup r.data (fmtVerifyCaptchaTicket k) = some rec) :
    Verify.GetCaptchaTicket r k =
      ((rec.value, none), ⟨true, rremove r.data (fmtVerifyCaptchaTicket k)⟩) := by
  cases r with
  | mk up data =>
    simp only [Redis.up] at hup
    simp only [Redis.data] at h
    subst hup
    simp [Verify.GetCaptchaTicket, Redis.get, Redis.del, h]

theorem getCaptchaTicket_absent (r : Redis) (k : String)
    (hup : r.up = true) (h : rlookup r.data (fmtVerifyCaptchaTicket k) = none) :
    Verify.GetCaptchaTicket r k = (("", some GoErr.redisNil), r) := by
  cases r with
  | mk up data =>
    simp only [Redis.up] at hup
    simp only [Redis.data] at h
    subst hup
    simp [Verify.GetCaptchaTicket, Redis.get, h]

theorem getCaptchaKey_err (r : Redis) (k : String) (e : GoErr)
    (h : (Verify.GetCaptchaKey r k).1.2 = some e) :
    Verify.GetCaptchaKey r k = (("", some e), r) := by
  unfold Verify.GetCaptchaKey at h ⊢
  rcases hg : Redis.get r (fmtVerifyCaptchaKey k) with ⟨v, oe⟩
  cases oe with
  | none => simp [hg] at h
  | some e2 => simp_all [hg]

theorem getCaptchaTicket_err (r : Redis) (k : String) (e : GoErr)
    (h : (Verify.GetCaptchaTicket r k).1.2 = some e) :
    Verify.GetCaptchaTicket r k = (("", some e), r) := by
  unfold Verify.GetCaptchaTicket at h ⊢
  rcases hg : Redis.get r (fmtVerifyCaptchaTicket k) with ⟨v, oe⟩
  cases oe with
  | none => simp [hg] at h
  | some e2 => simp_all [hg]

theorem serverErr_withErr_not_ok (e : Option String) :
    (common.ServerErr.WithErr e).IsOk = false := rfl

theorem serverErr_withMsg_not_ok (m : String) :
    (common.ServerErr.WithMsg m).IsOk = false := rfl

theorem redisErr_withErr_not_ok (e : Option String) :
    (common.RedisErr.WithErr e).IsOk = false := rfl

theorem paramErr_withMsg_not_ok (m : String) :
    (common.ParamErr.WithMsg m).IsOk = false := rfl

theorem invalidCaptchaErr_not_ok : common.InvalidCaptchaErr.IsOk = false := rfl

theorem ok_isOk : common.OK.IsOk = true := rfl

theorem checkPoint_five (sx sy dx dy : Int) :
    slide.CheckPoint sx sy dx dy 5 = true ↔
      (sx - dx).natAbs ≤ 5 ∧ (sy - dy).natAbs ≤ 5 := by
  unfold slide.CheckPoint
  simp only [Bool.and_eq_true, decide_eq_true_eq]
  omega

/-- Full reduction of CheckSlideCaptcha on a reachable store holding a
record for the submitted key: the record is read and consumed, then the
outcome depends on the stored value, the deserialization and the point
check. -/
theorem checkSlideCaptcha_present_eq
    (dec : String → Option slide.Block) (t1 : String) (r : Redis)
    (req : dto.CheckCaptchaReq) (rec : RedisRecord)
    (hup : r.up = true)
    (hl : rlookup r.data (fmtVerifyCaptchaKey req.Key) = some rec) :
    Service.CheckSlideCaptcha dec t1 r req =
      (if rec.value = "" then
        ((none, common.ParamErr.WithMsg "滑块已过期，请刷新重试"),
          ⟨true, rremove r.data (fmtVerifyCaptchaKey req.Key)⟩)
      else
        match dec rec.value with
        | none => ((none, common.InvalidCaptchaErr),
            ⟨true, rremove r.data (fmtVerifyCaptchaKey req.Key)⟩)
        | some dot =>
          if slide.CheckPoint req.SlideX req.SlideY dot.X dot.Y 5 = false then
            ((none, common.InvalidCaptchaErr),
              ⟨true, rremove r.data (fmtVerifyCaptchaKey req.Key)⟩)
          else
            ((some { Ticket := t1, Expire := 280 }, common.OK),
              ⟨true, rinsert (rremove r.data (fmtVerifyCaptchaKey req.Key))
                 (fmtVerifyCaptchaTicket t1) ⟨req.Key, timeMinute * 5⟩⟩)) := by
  unfold Service.CheckSlideCaptcha
  rw [getCaptchaKey_present r req.Key rec hup hl]
  by_cases hv : rec.value = ""
  · simp [hv]
  · cases hdec : dec rec.value with
    | none => simp [hv, hdec]
    | some dot =>
      by_cases hcp : slide.CheckPoint req.SlideX req.SlideY dot.X dot.Y 5 = false
      · simp [hv, hdec, hcp]
      · simp [hv, hdec, hcp, Verify.SetCaptchaTicket, Redis.set]

/-- Full reduction of GetSlideCaptcha when generation, data extraction,
serialization, encoding and the store write all succeed. -/
theorem getSlideCaptcha_success_eq
    (generate : Except String CaptData)
    (marshal : slide.Block → Except String String) (uuid : String) (r : Redis)
    (captData : CaptData) (dotData : slide.Block) (dots mB tB : String)
    (hg : generate = .ok captData)
    (hd : captData.dotData = some dotData)
    (hm : marshal dotData = .ok dots)
    (hmb : captData.masterBase64 = .ok mB)
    (htb : captData.tileBase64 = .ok tB)
    (hup : r.up = true) :
    Service.GetSlideCaptcha generate marshal uuid r =
      ((some { Key := uuid, ImageBs64 := mB, TitleImageBs64 := tB,
               TitleHeight := dotData.Height, TitleWidth := dotData.Width,
               TitleX := dotData.TileX, TitleY := dotData.TileY,
               Expire := 110 }, common.OK),
        ⟨true, rinsert r.data (fmtVerifyCaptchaKey uuid)
          ⟨dots, timeMinute * 2⟩⟩) := by
  cases r with
  | mk up data =>
    simp only [Redis.up] at hup
    subst hup
    subst hg
    simp [Service.GetSlideCaptcha, hd, hm, hmb, htb,
      Verify.SetCaptchaKey, Redis.set]

theorem getCaptchaKey_ok (r : Redis) (k : String)
    (h : (Verify.GetCaptchaKey r k).1.2 = none) :
    ∃ rec, r.up = true ∧ rlookup r.data (fmtVerifyCaptchaKey k) = some rec := by
  by_cases hup : r.up = true
  · rcases hl : rlookup r.data (fmtVerifyCaptchaKey k) with _ | rec
    · rw [getCaptchaKey_absent r k hup hl] at h
      simp at h
    · exact ⟨rec, hup, rfl⟩
  · have hup2 : r.up = false := by simpa using hup
    simp [Verify.GetCaptchaKey, Redis.get, hup2] at h

theorem getCaptchaTicket_ok (r : Redis) (k : String)
    (h : (Verify.GetCaptchaTicket r k).1.2 = none) :
    ∃ rec, r.up = true ∧ rlookup r.data (fmtVerifyCaptchaTicket k) = some rec := by
  by_cases hup : r.up = true
  · rcases hl : rlookup r.data (fmtVerifyCaptchaTicket k) with _ | rec
    · rw [getCaptchaTicket_absent r k hup hl] at h
      simp at h
    · exact ⟨rec, hup, rfl⟩
  · have hup2 : r.up = false := by simpa using hup
    simp [Verify.GetCaptchaTicket, Redis.get, hup2] at h

/-- C1: destructive single-use retrieval.  If a take operation
(GetCaptchaKey for a challenge id, GetCaptchaTicket for a ticket id)
successfully returned the stored value, then a further call with the
same id on the resulting store reports absence — the `redis.Nil`
not-found error and the empty value — and leaves the store unchanged,
so every subsequent call with that id reports absence as well. -/
theorem take_single_use (r : Redis) (k t : String)
    (hk : (Verify.GetCaptchaKey r k).1.2 = none)
    (ht : (Verify.GetCaptchaTicket r t).1.2 = none) :
    (Verify.GetCaptchaKey (Verify.GetCaptchaKey r k).2 k).1
        = ("", some GoErr.redisNil)
    ∧ (Verify.GetCaptchaKey (Verify.GetCaptchaKey r k).2 k).2
        = (Verify.GetCaptchaKey r k).2
    ∧ (Verify.GetCaptchaTicket (Verify.GetCaptchaTicket r t).2 t).1
        = ("", some GoErr.redisNil)
    ∧ (Verify.GetCaptchaTicket (Verify.GetCaptchaTicket r t).2 t).2
        = (Verify.GetCaptchaTicket r t).2 := by
  obtain ⟨rec, hup, hl⟩ := getCaptchaKey_ok r k hk
  obtain ⟨rec2, hup2, hl2⟩ := getCaptchaTicket_ok r t ht
  have e1 := getCaptchaKey_present r k rec hup hl
  have e3 := getCaptchaTicket_present r t rec2 hup2 hl2
  have e2 := getCaptchaKey_absent ⟨true, rremove r.data (fmtVerifyCaptchaKey k)⟩
    k rfl (rlookup_rremove_self _ _)
  have e4 := getCaptchaTicket_absent
    ⟨true, rremove r.data (fmtVerifyCaptchaTicket t)⟩
    t rfl (rlookup_rremove_self _ _)
  rw [e1, e3]
  simp only
  rw [e2, e4]
  simp

/-- Store used by the witnesses: reachable, holding one challenge and
one ticket. -/
def rTakeW : Redis :=
  ⟨true, [(fmtVerifyCaptchaKey "c1", ⟨"P 100 50", 120⟩),
          (fmtVerifyCaptchaTicket "t1", ⟨"c1", 300⟩)]⟩

/-- C1 witness: the theorem applied to a concrete store holding
challenge c1 and ticket t1. -/
theorem take_single_use_witness :
    (Verify.GetCaptchaKey rTakeW "c1").1.2 = none
    ∧ (Verify.GetCaptchaTicket rTakeW "t1").1.2 = none
    ∧ ((Verify.GetCaptchaKey (Verify.GetCaptchaKey rTakeW "c1").2 "c1").1
          = ("", some GoErr.redisNil)
      ∧ (Verify.GetCaptchaKey (Verify.GetCaptchaKey rTakeW "c1").2 "c1").2
          = (Verify.GetCaptchaKey rTakeW "c1").2
      ∧ (Verify.GetCaptchaTicket (Verify.GetCaptchaTicket rTakeW "t1").2 "t1").1
          = ("", some GoErr.redisNil)
      ∧ (Verify.GetCaptchaTicket (Verify.GetCaptchaTicket rTakeW "t1").2 "t1").2
          = (Verify.GetCaptchaTicket rTakeW "t1").2) :=
  ⟨by decide, by decide, take_single_use rTakeW "c1" "t1" (by decide) (by decide)⟩

/-- C9: a take operation that returns an error — including the
not-found case — performs no delete and leaves the store exactly as it
was; only a call that successfully returns the stored value consumes
the record. -/
theorem take_error_preserves_state (r : Redis) (k t : String) (e1 e2 : GoErr)
    (hk : (Verify.GetCaptchaKey r k).1.2 = some e1)
    (ht : (Verify.GetCaptchaTicket r t).1.2 = some e2) :
    (Verify.GetCaptchaKey r k).2 = r
    ∧ (Verify.GetCaptchaKey r k).1.1 = ""
    ∧ (Verify.GetCaptchaTicket r t).2 = r
    ∧ (Verify.GetCaptchaTicket r t).1.1 = "" := by
  have h1 := getCaptchaKey_err r k e1 hk
  have h2 := getCaptchaTicket_err r t e2 ht
  rw [h1, h2]
  simp

/-- C9 witness: on a reachable empty store both take operations fail
with the not-found error and change nothing. -/
theorem take_error_preserves_state_witness :
    (Verify.GetCaptchaKey ⟨true, []⟩ "c1").1.2 = some GoErr.redisNil
    ∧ (Verify.GetCaptchaTicket ⟨true, []⟩ "t1").1.2 = some GoErr.redisNil
    ∧ ((Verify.GetCaptchaKey ⟨true, []⟩ "c1").2 = ⟨true, []⟩
      ∧ (Verify.GetCaptchaKey ⟨true, []⟩ "c1").1.1 = ""
      ∧ (Verify.GetCaptchaTicket ⟨true, []⟩ "t1").2 = ⟨true, []⟩
      ∧ (Verify.GetCaptchaTicket ⟨true, []⟩ "t1").1.1 = "") :=
  ⟨by decide, by decide,
    take_error_preserves_state ⟨true, []⟩ "c1" "t1" GoErr.redisNil GoErr.redisNil
      (by decide) (by decide)⟩

/-- C4: failure taxonomy on an absent challenge, checked on the code.
With a reachable store that does not hold the submitted challenge id,
CheckSlideCaptcha returns the RedisErr outcome (code 10001), because
the go-redis client reports the absent key as the `redis.Nil` error and
the service maps every GetCaptchaKey error to RedisErr; it does not
return the challenge-expired ParamErr outcome ("滑块已过期，请刷新重试")
that the claim requires — that branch fires only when a present value
is the empty string. -/
theorem checkSlideCaptcha_absent_yields_redisErr :
    (Service.CheckSlideCaptcha decodeBlockDemo "t1" ⟨true, []⟩
        ⟨"c1", 10, 10⟩).1.2 = common.RedisErr.WithErr (some "redis: nil")
    ∧ (Service.CheckSlideCaptcha decodeBlockDemo "t1" ⟨true, []⟩
        ⟨"c1", 10, 10⟩).1.2 ≠ common.ParamErr.WithMsg "滑块已过期，请刷新重试"
    ∧ (common.RedisErr.WithErr (some "redis: nil")).Code = 10001 :=
  ⟨by decide, by decide, by decide⟩

/-- Store used by the replay scenario: reachable, holding challenge c2
with solution point (10,10). -/
def rReplayW : Redis :=
  ⟨true, [(fmtVerifyCaptchaKey "c2", ⟨"P 10 10", 120⟩)]⟩

/-- C2 counterexample: the end-to-end replay scenario of the claim run
on the code.  VerifyChallenge(c2, (50,50)) returns CaptchaIncorrect
(InvalidCaptchaErr) as the claim says, but the retry
VerifyChallenge(c2, (10,10)) with the exact correct point returns the
RedisErr outcome, not the ChallengeExpiredOrConsumed ParamErr outcome
("滑块已过期，请刷新重试") the claim requires. -/
theorem checkSlideCaptcha_replay_counterexample :
    (Service.CheckSlideCaptcha decodeBlockDemo "t1" rReplayW
        ⟨"c2", 50, 50⟩).1.2 = common.InvalidCaptchaErr
    ∧ (Service.CheckSlideCaptcha decodeBlockDemo "t2"
        (Service.CheckSlideCaptcha decodeBlockDemo "t1" rReplayW
          ⟨"c2", 50, 50⟩).2 ⟨"c2", 10, 10⟩).1.2
      = common.RedisErr.WithErr (some "redis: nil")
    ∧ (Service.CheckSlideCaptcha decodeBlockDemo "t2"
        (Service.CheckSlideCaptcha decodeBlockDemo "t1" rReplayW
          ⟨"c2", 50, 50⟩).2 ⟨"c2", 10, 10⟩).1.2
      ≠ common.ParamErr.WithMsg "滑块已过期，请刷新重试" :=
  ⟨by decide, by decide, by decide⟩

/-- After any first CheckSlideCaptcha call on a live challenge — match
or mismatch — the store stays reachable and no longer holds the
challenge id (the hypothesis hsep rules out the degenerate case of a
challenge id of the form "ticket:..." aliasing the minted ticket key). -/
theorem checkSlideCaptcha_post_state
    (dec : String → Option slide.Block) (t1 : String) (r : Redis)
    (req : dto.CheckCaptchaReq) (rec : RedisRecord)
    (hup : r.up = true)
    (hl : rlookup r.data (fmtVerifyCaptchaKey req.Key) = some rec)
    (hsep : fmtVerifyCaptchaKey req.Key ≠ fmtVerifyCaptchaTicket t1) :
    (Service.CheckSlideCaptcha dec t1 r req).2.up = true
    ∧ rlookup (Service.CheckSlideCaptcha dec t1 r req).2.data
        (fmtVerifyCaptchaKey req.Key) = none := by
  rw [checkSlideCaptcha_present_eq dec t1 r req rec hup hl]
  by_cases hv : rec.value = ""
  · simp [hv, rlookup_rremove_self]
  · cases hdec : dec rec.value with
    | none => simp [hv, hdec, rlookup_rremove_self]
    | some dot =>
      by_cases hcp : slide.CheckPoint req.SlideX req.SlideY dot.X dot.Y 5 = false
      · simp [hv, hdec, hcp, rlookup_rremove_self]
      · have hins := rlookup_rinsert_other
          (rremove r.data (fmtVerifyCaptchaKey req.Key))
          (fmtVerifyCaptchaTicket t1) (fmtVerifyCaptchaKey req.Key)
          ⟨req.Key, timeMinute * 5⟩ (Ne.symm hsep)
        simp [hv, hdec, hcp, hins, rlookup_rremove_self]

/-- C2 (amended): anti-replay at the engine level.  Once
CheckSlideCaptcha has been called on a live challenge id — whether that
first call succeeded with a ticket or failed with a mismatch — every
later call on the same id, even one submitting the exact correct point,
fails with no response and the RedisErr outcome carrying the not-found
error (rather than the claimed ChallengeExpiredOrConsumed ParamErr
outcome); in particular no later call reaches the solution comparison
or mints a ticket, so the comparison happens at most once per id. -/
theorem checkSlideCaptcha_no_second_judgement
    (dec : String → Option slide.Block) (t1 t2 : String) (r : Redis)
    (req req2 : dto.CheckCaptchaReq) (rec : RedisRecord)
    (hup : r.up = true)
    (hl : rlookup r.data (fmtVerifyCaptchaKey req.Key) = some rec)
    (hsep : fmtVerifyCaptchaKey req.Key ≠ fmtVerifyCaptchaTicket t1)
    (hkey : req2.Key = req.Key) :
    (Service.CheckSlideCaptcha dec t2
        (Service.CheckSlideCaptcha dec t1 r req).2 req2).1
      = (none, common.RedisErr.WithErr (some "redis: nil"))
    ∧ (Service.CheckSlideCaptcha dec t2
        (Service.CheckSlideCaptcha dec t1 r req).2 req2).2
      = (Service.CheckSlideCaptcha dec t1 r req).2 := by
  obtain ⟨hup1, habs⟩ := checkSlideCaptcha_post_state dec t1 r req rec hup hl hsep
  set p := (Service.CheckSlideCaptcha dec t1 r req).2 with hp
  have h2 : Verify.GetCaptchaKey p req2.Key = (("", some GoErr.redisNil), p) := by
    apply getCaptchaKey_absent _ _ hup1
    rw [hkey]
    exact habs
  have hfull : Service.CheckSlideCaptcha dec t2 p req2
      = ((none, common.RedisErr.WithErr (some "redis: nil")), p) := by
    unfold Service.CheckSlideCaptcha
    rw [h2]
    rfl
  rw [hfull]
  exact ⟨rfl, rfl⟩

/-- C2 witness: the amended theorem applied to the concrete replay
scenario (mismatch first, exact correct point second). -/
theorem checkSlideCaptcha_no_second_judgement_witness :
    rReplayW.up = true
    ∧ rlookup rReplayW.data (fmtVerifyCaptchaKey "c2")
        = some ⟨"P 10 10", 120⟩
    ∧ fmtVerifyCaptchaKey "c2" ≠ fmtVerifyCaptchaTicket "t1"
    ∧ ((Service.CheckSlideCaptcha decodeBlockDemo "t2"
          (Service.CheckSlideCaptcha decodeBlockDemo "t1" rReplayW
            ⟨"c2", 50, 50⟩).2 ⟨"c2", 10, 10⟩).1
        = (none, common.RedisErr.WithErr (some "redis: nil"))
      ∧ (Service.CheckSlideCaptcha decodeBlockDemo "t2"
          (Service.CheckSlideCaptcha decodeBlockDemo "t1" rReplayW
            ⟨"c2", 50, 50⟩).2 ⟨"c2", 10, 10⟩).2
        = (Service.CheckSlideCaptcha decodeBlockDemo "t1" rReplayW
            ⟨"c2", 50, 50⟩).2) :=
  ⟨by decide, by decide, by decide,
    checkSlideCaptcha_no_second_judgement decodeBlockDemo "t1" "t2" rReplayW
      ⟨"c2", 50, 50⟩ ⟨"c2", 10, 10⟩ ⟨"P 10 10", 120⟩
      (by decide) (by decide) (by decide) rfl⟩

/-- C3: tolerance matching.  On a reachable store holding a non-empty,
deserializable solution for the submitted key, CheckSlideCaptcha
succeeds exactly when the submitted point deviates from the stored
point by at most 5 units on each axis — so deviation exactly 5 passes —
and any larger deviation yields the InvalidCaptchaErr (CaptchaIncorrect)
outcome. -/
theorem checkSlideCaptcha_tolerance
    (dec : String → Option slide.Block) (t1 : String) (r : Redis)
    (req : dto.CheckCaptchaReq) (rec : RedisRecord) (dot : slide.Block)
    (hup : r.up = true)
    (hl : rlookup r.data (fmtVerifyCaptchaKey req.Key) = some rec)
    (hne : rec.value ≠ "")
    (hdec : dec rec.value = some dot) :
    ((Service.CheckSlideCaptcha dec t1 r req).1.2.IsOk = true
      ↔ (req.SlideX - dot.X).natAbs ≤ 5 ∧ (req.SlideY - dot.Y).natAbs ≤ 5)
    ∧ (¬((req.SlideX - dot.X).natAbs ≤ 5 ∧ (req.SlideY - dot.Y).natAbs ≤ 5) →
        (Service.CheckSlideCaptcha dec t1 r req).1.2
          = common.InvalidCaptchaErr) := by
  rw [checkSlideCaptcha_present_eq dec t1 r req rec hup hl]
  by_cases hcp : slide.CheckPoint req.SlideX req.SlideY dot.X dot.Y 5 = true
  · have habs := (checkPoint_five req.SlideX req.SlideY dot.X dot.Y).mp hcp
    simp [hne, hdec, hcp, ok_isOk, habs]
  · have hcp2 : slide.CheckPoint req.SlideX req.SlideY dot.X dot.Y 5 = false := by
      simpa using hcp
    have habs : ¬((req.SlideX - dot.X).natAbs ≤ 5
        ∧ (req.SlideY - dot.Y).natAbs ≤ 5) := fun hc =>
      hcp ((checkPoint_five req.SlideX req.SlideY dot.X dot.Y).mpr hc)
    simp [hne, hdec, hcp2, invalidCaptchaErr_not_ok, habs]

/-- C3 witness: with stored solution (100,50), a submission at deviation
exactly (5,5) is accepted and a submission at deviation 6 on the x axis
is rejected; both hypothesis sets are discharged on the concrete store. -/
theorem checkSlideCaptcha_tolerance_witness :
    rTakeW.up = true
    ∧ rlookup rTakeW.data (fmtVerifyCaptchaKey "c1") = some ⟨"P 100 50", 120⟩
    ∧ ("P 100 50" : String) ≠ ""
    ∧ decodeBlockDemo "P 100 50" = some ⟨100, 50, 60, 40, 20, 30⟩
    ∧ ((Service.CheckSlideCaptcha decodeBlockDemo "t9" rTakeW
          ⟨"c1", 105, 55⟩).1.2.IsOk = true
        ↔ ((105 : Int) - 100).natAbs ≤ 5 ∧ ((55 : Int) - 50).natAbs ≤ 5)
    ∧ (¬(((106 : Int) - 100).natAbs ≤ 5 ∧ ((50 : Int) - 50).natAbs ≤ 5) →
        (Service.CheckSlideCaptcha decodeBlockDemo "t9" rTakeW
          ⟨"c1", 106, 50⟩).1.2 = common.InvalidCaptchaErr) :=
  ⟨by decide, by decide, by decide, by decide,
    (checkSlideCaptcha_tolerance decodeBlockDemo "t9" rTakeW ⟨"c1", 105, 55⟩
      ⟨"P 100 50", 120⟩ ⟨100, 50, 60, 40, 20, 30⟩
      (by decide) (by decide) (by decide) (by decide)).1,
    (checkSlideCaptcha_tolerance decodeBlockDemo "t9" rTakeW ⟨"c1", 106, 50⟩
      ⟨"P 100 50", 120⟩ ⟨100, 50, 60, 40, 20, 30⟩
      (by decide) (by decide) (by decide) (by decide)).2⟩

/-- C5: ticket creation and binding.  A ticket is stored exactly when
verification succeeds: on success the response carries the minted
ticket id, the stored ticket payload is the original challenge id
`req.Key` (with the ticket TTL), and redeeming that ticket returns the
challenge id; on any failure the ticket namespace is left exactly as it
was.  The hypothesis hsep rules out challenge ids of the form
"ticket:..." that would alias the ticket namespace. -/
theorem checkSlideCaptcha_ticket_binding
    (dec : String → Option slide.Block) (t1 : String) (r : Redis)
    (req : dto.CheckCaptchaReq)
    (hsep : ∀ t, fmtVerifyCaptchaKey req.Key ≠ fmtVerifyCaptchaTicket t) :
    ((Service.CheckSlideCaptcha dec t1 r req).1.2.IsOk = true →
        (Service.CheckSlideCaptcha dec t1 r req).1.1
          = some { Ticket := t1, Expire := 280 }
      ∧ rlookup (Service.CheckSlideCaptcha dec t1 r req).2.data
          (fmtVerifyCaptchaTicket t1) = some ⟨req.Key, timeMinute * 5⟩
      ∧ (Verify.GetCaptchaTicket
          (Service.CheckSlideCaptcha dec t1 r req).2 t1).1 = (req.Key, none))
    ∧ ((Service.CheckSlideCaptcha dec t1 r req).1.2.IsOk = false →
        ∀ t, rlookup (Service.CheckSlideCaptcha dec t1 r req).2.data
            (fmtVerifyCaptchaTicket t)
          = rlookup r.data (fmtVerifyCaptchaTicket t)) := by
  by_cases hup : r.up = true
  · rcases hl : rlookup r.data (fmtVerifyCaptchaKey req.Key) with _ | rec
    · have heq : Service.CheckSlideCaptcha dec t1 r req
          = ((none, common.RedisErr.WithErr (some "redis: nil")), r) := by
        unfold Service.CheckSlideCaptcha
        rw [getCaptchaKey_absent r req.Key hup hl]
        rfl
      rw [heq]
      exact ⟨fun h => by simp [redisErr_withErr_not_ok] at h, fun _ t => rfl⟩
    · rw [checkSlideCaptcha_present_eq dec t1 r req rec hup hl]
      have hrem : ∀ t, rlookup (rremove r.data (fmtVerifyCaptchaKey req.Key))
          (fmtVerifyCaptchaTicket t) = rlookup r.data (fmtVerifyCaptchaTicket t) :=
        fun t => rlookup_rremove_other r.data (fmtVerifyCaptchaKey req.Key)
          (fmtVerifyCaptchaTicket t) (Ne.symm (hsep t))
      by_cases hv : rec.value = ""
      · simp [hv, paramErr_withMsg_not_ok, hrem]
      · cases hdec : dec rec.value with
        | none => simp [hv, hdec, invalidCaptchaErr_not_ok, hrem]
        | some dot =>
          by_cases hcp : slide.CheckPoint req.SlideX req.SlideY dot.X dot.Y 5
              = false
          · simp [hv, hdec, hcp, invalidCaptchaErr_not_ok, hrem]
          · have hticket := getCaptchaTicket_present
              ⟨true, rinsert (rremove r.data (fmtVerifyCaptchaKey req.Key))
                (fmtVerifyCaptchaTicket t1) ⟨req.Key, timeMinute * 5⟩⟩ t1
              ⟨req.Key, timeMinute * 5⟩ rfl (rlookup_rinsert_self _ _ _)
            simp [hv, hdec, hcp, ok_isOk, rlookup_rinsert_self, hticket]
  · have hup2 : r.up = false := by simpa using hup
    have heq : Service.CheckSlideCaptcha dec t1 r req
        = ((none, common.RedisErr.WithErr (some "redis: connection error")), r) := by
      unfold Service.CheckSlideCaptcha Verify.GetCaptchaKey Redis.get
      rw [hup2]
      rfl
    rw [heq]
    exact ⟨fun h => by simp [redisErr_withErr_not_ok] at h, fun _ t => rfl⟩

/-- Challenge and ticket Redis key names never collide when the
challenge id is shorter than the extra "ticket:" infix; in particular
for the 32-character UUID-hex ids of the source any id shorter than
7 characters used in scenarios is safe. -/
theorem fmt_sep_of_short (k : String) (hk : k.length < 7) :
    ∀ t, fmtVerifyCaptchaKey k ≠ fmtVerifyCaptchaTicket t := by
  intro t h
  have hlen := congrArg String.length h
  simp only [fmtVerifyCaptchaKey, fmtVerifyCaptchaTicket, ServerFullName,
    String.length_append] at hlen
  have h1 : ("edu.mall" : String).length = 8 := rfl
  have h2 : (":captcha:" : String).length = 9 := rfl
  have h3 : (":captcha:ticket:" : String).length = 16 := rfl
  omega

/-- C5 witness: the binding theorem applied to the store holding
challenge c1 with solution (100,50); a matching submission mints
ticket t7 bound to c1 and redeeming t7 returns c1. -/
theorem checkSlideCaptcha_ticket_binding_witness :
    (∀ t, fmtVerifyCaptchaKey "c1" ≠ fmtVerifyCaptchaTicket t)
    ∧ (Service.CheckSlideCaptcha decodeBlockDemo "t7" rTakeW
        ⟨"c1", 102, 48⟩).1.2.IsOk = true
    ∧ ((Service.CheckSlideCaptcha decodeBlockDemo "t7" rTakeW
          ⟨"c1", 102, 48⟩).1.1 = some { Ticket := "t7", Expire := 280 }
      ∧ rlookup (Service.CheckSlideCaptcha decodeBlockDemo "t7" rTakeW
          ⟨"c1", 102, 48⟩).2.data (fmtVerifyCaptchaTicket "t7")
          = some ⟨"c1", timeMinute * 5⟩
      ∧ (Verify.GetCaptchaTicket (Service.CheckSlideCaptcha decodeBlockDemo
          "t7" rTakeW ⟨"c1", 102, 48⟩).2 "t7").1 = ("c1", none)) :=
  ⟨fmt_sep_of_short "c1" (by decide), by decide,
    (checkSlideCaptcha_ticket_binding decodeBlockDemo "t7" rTakeW
      ⟨"c1", 102, 48⟩ (fmt_sep_of_short "c1" (by decide))).1 (by decide)⟩

/-- C10: degenerate stored values.  On a reachable store holding a
record for the submitted key, if the stored value is the empty string
CheckSlideCaptcha fails with the expired-challenge ParamErr outcome
("滑块已过期，请刷新重试") without reaching the comparison; if it is
non-empty but not deserializable it fails with InvalidCaptchaErr; in
both cases the challenge record has been consumed by the read and the
ticket namespace is unchanged. -/
theorem checkSlideCaptcha_degenerate_values
    (dec : String → Option slide.Block) (t1 : String) (r : Redis)
    (req : dto.CheckCaptchaReq) (rec : RedisRecord)
    (hup : r.up = true)
    (hl : rlookup r.data (fmtVerifyCaptchaKey req.Key) = some rec)
    (hsep : ∀ t, fmtVerifyCaptchaKey req.Key ≠ fmtVerifyCaptchaTicket t) :
    (rec.value = "" →
        (Service.CheckSlideCaptcha dec t1 r req).1
          = (none, common.ParamErr.WithMsg "滑块已过期，请刷新重试")
      ∧ rlookup (Service.CheckSlideCaptcha dec t1 r req).2.data
          (fmtVerifyCaptchaKey req.Key) = none
      ∧ ∀ t, rlookup (Service.CheckSlideCaptcha dec t1 r req).2.data
            (fmtVerifyCaptchaTicket t)
          = rlookup r.data (fmtVerifyCaptchaTicket t))
    ∧ (rec.value ≠ "" → dec rec.value = none →
        (Service.CheckSlideCaptcha dec t1 r req).1
          = (none, common.InvalidCaptchaErr)
      ∧ rlookup (Service.CheckSlideCaptcha dec t1 r req).2.data
          (fmtVerifyCaptchaKey req.Key) = none
      ∧ ∀ t, rlookup (Service.CheckSlideCaptcha dec t1 r req).2.data
            (fmtVerifyCaptchaTicket t)
          = rlookup r.data (fmtVerifyCaptchaTicket t)) := by
  rw [checkSlideCaptcha_present_eq dec t1 r req rec hup hl]
  have hrem : ∀ t, rlookup (rremove r.data (fmtVerifyCaptchaKey req.Key))
      (fmtVerifyCaptchaTicket t) = rlookup r.data (fmtVerifyCaptchaTicket t) :=
    fun t => rlookup_rremove_other r.data (fmtVerifyCaptchaKey req.Key)
      (fmtVerifyCaptchaTicket t) (Ne.symm (hsep t))
  constructor
  · intro hv
    simp [hv, rlookup_rremove_self, hrem]
  · intro hv hdec
    simp [hv, hdec, rlookup_rremove_self, hrem]

/-- Store used by the C10 witness: reachable, holding one challenge
whose stored value is empty and one whose value is not deserializable. -/
def rDegenW : Redis :=
  ⟨true, [(fmtVerifyCaptchaKey "c3", ⟨"", 120⟩),
          (fmtVerifyCaptchaKey "c4", ⟨"garbage", 120⟩)]⟩

/-- C10 witness: the theorem applied to the empty stored value (key c3)
and to a non-deserializable stored value (key c4). -/
theorem checkSlideCaptcha_degenerate_values_witness :
    rDegenW.up = true
    ∧ rlookup rDegenW.data (fmtVerifyCaptchaKey "c3") = some ⟨"", 120⟩
    ∧ rlookup rDegenW.data (fmtVerifyCaptchaKey "c4") = some ⟨"garbage", 120⟩
    ∧ decodeBlockDemo "garbage" = none
    ∧ ((Service.CheckSlideCaptcha decodeBlockDemo "t1" rDegenW
          ⟨"c3", 10, 10⟩).1
        = (none, common.ParamErr.WithMsg "滑块已过期，请刷新重试")
      ∧ rlookup (Service.CheckSlideCaptcha decodeBlockDemo "t1" rDegenW
          ⟨"c3", 10, 10⟩).2.data (fmtVerifyCaptchaKey "c3") = none
      ∧ ∀ t, rlookup (Service.CheckSlideCaptcha decodeBlockDemo "t1" rDegenW
            ⟨"c3", 10, 10⟩).2.data (fmtVerifyCaptchaTicket t)
          = rlookup rDegenW.data (fmtVerifyCaptchaTicket t))
    ∧ ((Service.CheckSlideCaptcha decodeBlockDemo "t1" rDegenW
          ⟨"c4", 10, 10⟩).1 = (none, common.InvalidCaptchaErr)
      ∧ rlookup (Service.CheckSlideCaptcha decodeBlockDemo "t1" rDegenW
          ⟨"c4", 10, 10⟩).2.data (fmtVerifyCaptchaKey "c4") = none
      ∧ ∀ t, rlookup (Service.CheckSlideCaptcha decodeBlockDemo "t1" rDegenW
            ⟨"c4", 10, 10⟩).2.data (fmtVerifyCaptchaTicket t)
          = rlookup rDegenW.data (fmtVerifyCaptchaTicket t)) :=
  ⟨by decide, by decide, by decide, by decide,
    (checkSlideCaptcha_degenerate_values decodeBlockDemo "t1" rDegenW
      ⟨"c3", 10, 10⟩ ⟨"", 120⟩ (by decide) (by decide)
      (fmt_sep_of_short "c3" (by decide))).1 (by decide),
    (checkSlideCaptcha_degenerate_values decodeBlockDemo "t1" rDegenW
      ⟨"c4", 10, 10⟩ ⟨"garbage", 120⟩ (by decide) (by decide)
      (fmt_sep_of_short "c4" (by decide))).2 (by decide) (by decide)⟩

theorem getSlideCaptcha_ok_inv
    (generate : Except String CaptData)
    (marshal : slide.Block → Except String String) (uuid : String) (r : Redis)
    (h : (Service.GetSlideCaptcha generate marshal uuid r).1.2.IsOk = true) :
    ∃ captData dotData dots mB tB,
      generate = Except.ok captData ∧ captData.dotData = some dotData
      ∧ marshal dotData = Except.ok dots
      ∧ captData.masterBase64 = Except.ok mB
      ∧ captData.tileBase64 = Except.ok tB ∧ r.up = true := by
  cases generate with
  | error e =>
    exfalso
    simp [Service.GetSlideCaptcha, serverErr_withErr_not_ok] at h
  | ok captData =>
    cases hd : captData.dotData with
    | none =>
      exfalso
      simp [Service.GetSlideCaptcha, hd, serverErr_withMsg_not_ok] at h
    | some dotData =>
      cases hm : marshal dotData with
      | error e =>
        exfalso
        simp [Service.GetSlideCaptcha, hd, hm, serverErr_withErr_not_ok] at h
      | ok dots =>
        cases hmb : captData.masterBase64 with
        | error e =>
          exfalso
          simp [Service.GetSlideCaptcha, hd, hm, hmb,
            serverErr_withErr_not_ok] at h
        | ok mB =>
          cases htb : captData.tileBase64 with
          | error e =>
            exfalso
            simp [Service.GetSlideCaptcha, hd, hm, hmb, htb,
              serverErr_withErr_not_ok] at h
          | ok tB =>
            by_cases hup : r.up = true
            · exact ⟨captData, dotData, dots, mB, tB, rfl, hd, hm, hmb, htb, hup⟩
            · exfalso
              have hup2 : r.up = false := by simpa using hup
              simp [Service.GetSlideCaptcha, hd, hm, hmb, htb,
                Verify.SetCaptchaKey, Redis.set, hup2,
                redisErr_withErr_not_ok] at h

theorem checkSlideCaptcha_ok_inv (dec : String → Option slide.Block)
    (t1 : String) (r : Redis) (req : dto.CheckCaptchaReq)
    (h : (Service.CheckSlideCaptcha dec t1 r req).1.2.IsOk = true) :
    ∃ rec dot, r.up = true
      ∧ rlookup r.data (fmtVerifyCaptchaKey req.Key) = some rec
      ∧ rec.value ≠ "" ∧ dec rec.value = some dot
      ∧ slide.CheckPoint req.SlideX req.SlideY dot.X dot.Y 5 = true := by
  by_cases hup : r.up = true
  · rcases hl : rlookup r.data (fmtVerifyCaptchaKey req.Key) with _ | rec
    · exfalso
      have heq : Service.CheckSlideCaptcha dec t1 r req
          = ((none, common.RedisErr.WithErr (some "redis: nil")), r) := by
        unfold Service.CheckSlideCaptcha
        rw [getCaptchaKey_absent r req.Key hup hl]
        rfl
      rw [heq] at h
      simp [redisErr_withErr_not_ok] at h
    · rw [checkSlideCaptcha_present_eq dec t1 r req rec hup hl] at h
      by_cases hv : rec.value = ""
      · exfalso
        simp [hv, paramErr_withMsg_not_ok] at h
      · cases hdec : dec rec.value with
        | none =>
          exfalso
          simp [hv, hdec, invalidCaptchaErr_not_ok] at h
        | some dot =>
          by_cases hcp : slide.CheckPoint req.SlideX req.SlideY dot.X dot.Y 5
              = false
          · exfalso
            simp [hv, hdec, hcp, invalidCaptchaErr_not_ok] at h
          · have hcp2 : slide.CheckPoint req.SlideX req.SlideY dot.X dot.Y 5
                = true := by simpa using hcp
            exact ⟨rec, dot, hup, rfl, hv, hdec, hcp2⟩
  · exfalso
    have hup2 : r.up = false := by simpa using hup
    have heq : Service.CheckSlideCaptcha dec t1 r req
        = ((none, common.RedisErr.WithErr (some "redis: connection error")), r) := by
      unfold Service.CheckSlideCaptcha Verify.GetCaptchaKey Redis.get
      rw [hup2]
      rfl
    rw [heq] at h
    simp [redisErr_withErr_not_ok] at h

/-- C6: TTL constants.  Every successfully issued challenge is stored
with a TTL of 120 seconds (time.Minute*2) under the generated key, and
every ticket minted by a successful verification is stored with a TTL
of 300 seconds (time.Minute*5). -/
theorem captcha_ttl_constants
    (generate : Except String CaptData)
    (marshal : slide.Block → Except String String) (uuid : String) (r : Redis)
    (dec : String → Option slide.Block) (t1 : String)
    (req : dto.CheckCaptchaReq) :
    ((Service.GetSlideCaptcha generate marshal uuid r).1.2.IsOk = true →
      (rlookup (Service.GetSlideCaptcha generate marshal uuid r).2.data
        (fmtVerifyCaptchaKey uuid)).map RedisRecord.ttl = some 120)
    ∧ ((Service.CheckSlideCaptcha dec t1 r req).1.2.IsOk = true →
      (rlookup (Service.CheckSlideCaptcha dec t1 r req).2.data
        (fmtVerifyCaptchaTicket t1)).map RedisRecord.ttl = some 300) := by
  constructor
  · intro hok
    obtain ⟨captData, dotData, dots, mB, tB, hg, hd, hm, hmb, htb, hup⟩ :=
      getSlideCaptcha_ok_inv generate marshal uuid r hok
    rw [getSlideCaptcha_success_eq generate marshal uuid r captData dotData
      dots mB tB hg hd hm hmb htb hup]
    simp [rlookup_rinsert_self, timeMinute]
  · intro hok
    obtain ⟨rec, dot, hup, hl, hv, hdec, hcp⟩ :=
      checkSlideCaptcha_ok_inv dec t1 r req hok
    rw [checkSlideCaptcha_present_eq dec t1 r req rec hup hl]
    simp [hv, hdec, hcp, rlookup_rinsert_self, timeMinute]

/-- C6 witness: a concrete successful issuance stores the challenge with
TTL 120 and a concrete successful verification stores the ticket with
TTL 300. -/
theorem captcha_ttl_constants_witness :
    (Service.GetSlideCaptcha
        (Except.ok ⟨some ⟨100, 50, 60, 40, 20, 30⟩, Except.ok "m64",
          Except.ok "t64"⟩) encodeBlockDemo "c9" ⟨true, []⟩).1.2.IsOk = true
    ∧ (Service.CheckSlideCaptcha decodeBlockDemo "t8" rTakeW
        ⟨"c1", 100, 50⟩).1.2.IsOk = true
    ∧ ((rlookup (Service.GetSlideCaptcha
          (Except.ok ⟨some ⟨100, 50, 60, 40, 20, 30⟩, Except.ok "m64",
            Except.ok "t64"⟩) encodeBlockDemo "c9" ⟨true, []⟩).2.data
          (fmtVerifyCaptchaKey "c9")).map RedisRecord.ttl = some 120)
    ∧ ((rlookup (Service.CheckSlideCaptcha decodeBlockDemo "t8" rTakeW
          ⟨"c1", 100, 50⟩).2.data
          (fmtVerifyCaptchaTicket "t8")).map RedisRecord.ttl = some 300) :=
  ⟨by decide, by decide,
    (captcha_ttl_constants
      (Except.ok ⟨some ⟨100, 50, 60, 40, 20, 30⟩, Except.ok "m64",
        Except.ok "t64"⟩) encodeBlockDemo "c9" ⟨true, []⟩
      decodeBlockDemo "t8" ⟨"c1", 100, 50⟩).1 (by decide),
    (captcha_ttl_constants
      (Except.ok ⟨some ⟨100, 50, 60, 40, 20, 30⟩, Except.ok "m64",
        Except.ok "t64"⟩) encodeBlockDemo "c9" rTakeW
      decodeBlockDemo "t8" ⟨"c1", 100, 50⟩).2 (by decide)⟩

/-- C7: no partial state on failed issuance.  Whenever GetSlideCaptcha
returns a non-OK outcome — generation failed, solution extraction or
serialization failed, image encoding failed, or the store write failed —
the store is exactly as it was, so no challenge record is left under
any key; and on the OK outcome the response carries the generated key
and a challenge record is stored under it. -/
theorem getSlideCaptcha_no_partial_state
    (generate : Except String CaptData)
    (marshal : slide.Block → Except String String) (uuid : String)
    (r : Redis) :
    ((Service.GetSlideCaptcha generate marshal uuid r).1.2.IsOk = false →
      (Service.GetSlideCaptcha generate marshal uuid r).2 = r)
    ∧ ((Service.GetSlideCaptcha generate marshal uuid r).1.2.IsOk = true →
      ∃ resp, (Service.GetSlideCaptcha generate marshal uuid r).1.1 = some resp
        ∧ resp.Key = uuid
        ∧ rlookup (Service.GetSlideCaptcha generate marshal uuid r).2.data
            (fmtVerifyCaptchaKey uuid) ≠ none) := by
  constructor
  · intro hfail
    cases generate with
    | error e => rfl
    | ok captData =>
      cases hd : captData.dotData with
      | none => simp [Service.GetSlideCaptcha, hd]
      | some dotData =>
        cases hm : marshal dotData with
        | error e => simp [Service.GetSlideCaptcha, hd, hm]
        | ok dots =>
          cases hmb : captData.masterBase64 with
          | error e => simp [Service.GetSlideCaptcha, hd, hm, hmb]
          | ok mB =>
            cases htb : captData.tileBase64 with
            | error e => simp [Service.GetSlideCaptcha, hd, hm, hmb, htb]
            | ok tB =>
              by_cases hup : r.up = true
              · exfalso
                rw [getSlideCaptcha_success_eq (Except.ok captData) marshal
                  uuid r captData dotData dots mB tB rfl hd hm hmb htb hup]
                  at hfail
                simp [ok_isOk] at hfail
              · have hup2 : r.up = false := by simpa using hup
                cases r with
                | mk up data =>
                  simp only [Redis.up] at hup2
                  subst hup2
                  simp [Service.GetSlideCaptcha, hd, hm, hmb, htb,
                    Verify.SetCaptchaKey, Redis.set]
  · intro hok
    obtain ⟨captData, dotData, dots, mB, tB, hg, hd, hm, hmb, htb, hup⟩ :=
      getSlideCaptcha_ok_inv generate marshal uuid r hok
    rw [getSlideCaptcha_success_eq generate marshal uuid r captData dotData
      dots mB tB hg hd hm hmb htb hup]
    exact ⟨_, rfl, rfl, by simp [rlookup_rinsert_self]⟩

/-- C7 witness: a failed issuance (store unreachable) leaves the store
unchanged, at a concrete input on which all earlier steps succeed; a
successful issuance on a reachable store returns the key and stores the
challenge. -/
theorem getSlideCaptcha_no_partial_state_witness :
    (Service.GetSlideCaptcha
        (Except.ok ⟨some ⟨100, 50, 60, 40, 20, 30⟩, Except.ok "m64",
          Except.ok "t64"⟩) encodeBlockDemo "c9"
        ⟨false, []⟩).1.2.IsOk = false
    ∧ (Service.GetSlideCaptcha
        (Except.ok ⟨some ⟨100, 50, 60, 40, 20, 30⟩, Except.ok "m64",
          Except.ok "t64"⟩) encodeBlockDemo "c9" ⟨false, []⟩).2
      = ⟨false, []⟩
    ∧ (Service.GetSlideCaptcha
        (Except.ok ⟨some ⟨100, 50, 60, 40, 20, 30⟩, Except.ok "m64",
          Except.ok "t64"⟩) encodeBlockDemo "c9"
        ⟨true, []⟩).1.2.IsOk = true
    ∧ ∃ resp, (Service.GetSlideCaptcha
          (Except.ok ⟨some ⟨100, 50, 60, 40, 20, 30⟩, Except.ok "m64",
            Except.ok "t64"⟩) encodeBlockDemo "c9" ⟨true, []⟩).1.1 = some resp
        ∧ resp.Key = "c9"
        ∧ rlookup (Service.GetSlideCaptcha
            (Except.ok ⟨some ⟨100, 50, 60, 40, 20, 30⟩, Except.ok "m64",
              Except.ok "t64"⟩) encodeBlockDemo "c9" ⟨true, []⟩).2.data
            (fmtVerifyCaptchaKey "c9") ≠ none :=
  ⟨by decide,
    (getSlideCaptcha_no_partial_state
      (Except.ok ⟨some ⟨100, 50, 60, 40, 20, 30⟩, Except.ok "m64",
        Except.ok "t64"⟩) encodeBlockDemo "c9" ⟨false, []⟩).1 (by decide),
    by decide,
    (getSlideCaptcha_no_partial_state
      (Except.ok ⟨some ⟨100, 50, 60, 40, 20, 30⟩, Except.ok "m64",
        Except.ok "t64"⟩) encodeBlockDemo "c9" ⟨true, []⟩).2 (by decide)⟩

/-- C8: advisory expiry hints understate the stored TTL.  A successful
issuance returns the hint Expire = 110 while the challenge is stored
with TTL 120 seconds, and a successful verification returns the hint
Expire = 280 while the ticket is stored with TTL 300 seconds; in both
cases the hint is at most the stored TTL. -/
theorem expire_hint_understates_ttl
    (generate : Except String CaptData)
    (marshal : slide.Block → Except String String) (uuid : String) (r : Redis)
    (dec : String → Option slide.Block) (t1 : String)
    (req : dto.CheckCaptchaReq) :
    ((Service.GetSlideCaptcha generate marshal uuid r).1.2.IsOk = true →
      ∃ resp, (Service.GetSlideCaptcha generate marshal uuid r).1.1 = some resp
        ∧ resp.Expire = 110
        ∧ (rlookup (Service.GetSlideCaptcha generate marshal uuid r).2.data
            (fmtVerifyCaptchaKey resp.Key)).map RedisRecord.ttl = some 120
        ∧ resp.Expire ≤ 120)
    ∧ ((Service.CheckSlideCaptcha dec t1 r req).1.2.IsOk = true →
      ∃ resp, (Service.CheckSlideCaptcha dec t1 r req).1.1 = some resp
        ∧ resp.Expire = 280
        ∧ (rlookup (Service.CheckSlideCaptcha dec t1 r req).2.data
            (fmtVerifyCaptchaTicket resp.Ticket)).map RedisRecord.ttl = some 300
        ∧ resp.Expire ≤ 300) := by
  constructor
  · intro hok
    obtain ⟨captData, dotData, dots, mB, tB, hg, hd, hm, hmb, htb, hup⟩ :=
      getSlideCaptcha_ok_inv generate marshal uuid r hok
    rw [getSlideCaptcha_success_eq generate marshal uuid r captData dotData
      dots mB tB hg hd hm hmb htb hup]
    refine ⟨_, rfl, rfl, ?_, by norm_num⟩
    simp [rlookup_rinsert_self, timeMinute]
  · intro hok
    obtain ⟨rec, dot, hup, hl, hv, hdec, hcp⟩ :=
      checkSlideCaptcha_ok_inv dec t1 r req hok
    have heq : Service.CheckSlideCaptcha dec t1 r req
        = ((some { Ticket := t1, Expire := 280 }, common.OK),
            ⟨true, rinsert (rremove r.data (fmtVerifyCaptchaKey req.Key))
              (fmtVerifyCaptchaTicket t1) ⟨req.Key, timeMinute * 5⟩⟩) := by
      rw [checkSlideCaptcha_present_eq dec t1 r req rec hup hl]
      simp [hv, hdec, hcp]
    rw [heq]
    exact ⟨{ Ticket := t1, Expire := 280 }, rfl, rfl,
      by simp [rlookup_rinsert_self, timeMinute], by norm_num⟩

/-- C8 witness: the hint theorem applied to a concrete successful
issuance and a concrete successful verification. -/
theorem expire_hint_understates_ttl_witness :
    (Service.GetSlideCaptcha
        (Except.ok ⟨some ⟨100, 50, 60, 40, 20, 30⟩, Except.ok "m64",
          Except.ok "t64"⟩) encodeBlockDemo "c9" ⟨true, []⟩).1.2.IsOk = true
    ∧ (Service.CheckSlideCaptcha decodeBlockDemo "t8" rTakeW
        ⟨"c1", 100, 50⟩).1.2.IsOk = true
    ∧ (∃ resp, (Service.GetSlideCaptcha
          (Except.ok ⟨some ⟨100, 50, 60, 40, 20, 30⟩, Except.ok "m64",
            Except.ok "t64"⟩) encodeBlockDemo "c9" ⟨true, []⟩).1.1 = some resp
        ∧ resp.Expire = 110
        ∧ (rlookup (Service.GetSlideCaptcha
            (Except.ok ⟨some ⟨100, 50, 60, 40, 20, 30⟩, Except.ok "m64",
              Except.ok "t64"⟩) encodeBlockDemo "c9" ⟨true, []⟩).2.data
            (fmtVerifyCaptchaKey resp.Key)).map RedisRecord.ttl = some 120
        ∧ resp.Expire ≤ 120)
    ∧ (∃ resp, (Service.CheckSlideCaptcha decodeBlockDemo "t8" rTakeW
          ⟨"c1", 100, 50⟩).1.1 = some resp
        ∧ resp.Expire = 280
        ∧ (rlookup (Service.CheckSlideCaptcha decodeBlockDemo "t8" rTakeW
            ⟨"c1", 100, 50⟩).2.data
            (fmtVerifyCaptchaTicket resp.Ticket)).map RedisRecord.ttl = some 300
        ∧ resp.Expire ≤ 300) :=
  ⟨by decide, by decide,
    (expire_hint_understates_ttl
      (Except.ok ⟨some ⟨100, 50, 60, 40, 20, 30⟩, Except.ok "m64",
        Except.ok "t64"⟩) encodeBlockDemo "c9" ⟨true, []⟩
      decodeBlockDemo "t8" ⟨"c1", 100, 50⟩).1 (by decide),
    (expire_hint_understates_ttl
      (Except.ok ⟨some ⟨100, 50, 60, 40, 20, 30⟩, Except.ok "m64",
        Except.ok "t64"⟩) encodeBlockDemo "c9" rTakeW
      decodeBlockDemo "t8" ⟨"c1", 100, 50⟩).2 (by decide)⟩
